import Mathlib

/-!
Shallow embedding of `imnet_extract/train.py` (FixRes extraction pipeline).

Python dictionaries with string keys are modelled as association lists
`List (String × α)` read through `List.lookup` (first binding wins, matching
the unique-key discipline of a Python `dict`).  Mutable `nn.Module` objects
are modelled through a small heap mapping references (`Nat`) to their
`state_dict`, so that in-place mutation (`load_state_dict`) and object
identity are expressible.  Python exceptions are an explicit `PyErr` value
threaded through `Except`.
-/

namespace FixRes

/-- Python exceptions that the embedded code can raise. -/
inductive PyErr
  | keyError (k : String)
  | nameError (n : String)
  | attributeError (a : String)
  | assertionError (msg : String)
  | zeroDivisionError
  | typeError (msg : String)
  | runtimeError (msg : String)
  deriving DecidableEq, Repr

/-! ### Weight loader (train.py, `Trainer._init_state`, lines 134-144)

```
model_dict = model.state_dict()
count=0; count2=0
for k in model_dict.keys():
    count=count+1.0
    if(('module.'+k) in pretrained_dict.keys()):
        count2=count2+1.0
        model_dict[k]=pretrained_dict.get(('module.'+k))
model.load_state_dict(model_dict)
print("load "+str(count2*100/count)+" %")
assert int(count2*100/count)== 100,"model loading error"
```
-/

/-- One iteration of the copy loop: the entry for key `k` of the target dict
becomes the source's value at `"module." ++ k` when that key is present in
the source, and is kept unchanged otherwise. -/
def copyEntry {α : Type} (pretrained_dict : List (String × α)) (kv : String × α) :
    String × α :=
  match List.lookup ("module." ++ kv.1) pretrained_dict with
  | some v => (kv.1, v)
  | none => kv

/-- The copy loop over all keys of the target `model_dict`. -/
def copyPretrained {α : Type} (model_dict pretrained_dict : List (String × α)) :
    List (String × α) :=
  model_dict.map (copyEntry pretrained_dict)

/-- The counter `count2`: number of target entries whose `"module." ++ k`
key occurs in the source dict. -/
def matchedCount {α : Type} (model_dict pretrained_dict : List (String × α)) : Nat :=
  (model_dict.filter
    (fun kv => (List.lookup ("module." ++ kv.1) pretrained_dict).isSome)).length

/-- The quantity `count2*100/count` printed and then truncated by the
assertion (`count` is `model_dict.length`).  Exact rational arithmetic
stands for Python's float arithmetic, which is exact here for any realistic
parameter count. -/
def coveragePercent {α : Type} (model_dict pretrained_dict : List (String × α)) : ℚ :=
  (matchedCount model_dict pretrained_dict : ℚ) * 100 / (model_dict.length : ℚ)

/-- Coverage as the spec's words state it: the fraction of target keys that
received a copied value.  Stated from the spec, for comparison with
`coveragePercent`, which is translated from the code. -/
def coverageFraction {α : Type} (model_dict pretrained_dict : List (String × α)) : ℚ :=
  (matchedCount model_dict pretrained_dict : ℚ) / (model_dict.length : ℚ)

/-- The guard of `assert int(count2*100/count) == 100`: `int()` truncates,
and the quantity is nonnegative, so it is the floor. -/
def coverageAssertPasses {α : Type}
    (model_dict pretrained_dict : List (String × α)) : Prop :=
  ⌊coveragePercent model_dict pretrained_dict⌋ = (100 : ℤ)

instance {α : Type} (md pd : List (String × α)) :
    Decidable (coverageAssertPasses md pd) := by
  unfold coverageAssertPasses; infer_instance

/-! ### Models, heap, TrainerState (train.py lines 27-51)

An `nn.Module` is identified with its `state_dict`; mutable module objects
live in a heap keyed by references, so that `load_state_dict` (an in-place
update) and object identity (`data["model"] = model` returning the very
same object) are both expressible. -/

/-- Parameter tensors are opaque payloads; an integer stands for the
tensor's content, equality of payloads meaning bit-for-bit equality. -/
abbrev Tensor := Int

abbrev StateDict := List (String × Tensor)

/-- Heap of live module objects: a reference counter plus cells mapping a
reference to the module's current parameters. -/
structure Heap where
  next : Nat
  cells : List (Nat × StateDict)
  deriving DecidableEq, Repr

def Heap.get (h : Heap) (r : Nat) : Option StateDict :=
  List.lookup r h.cells

def Heap.set (h : Heap) (r : Nat) (sd : StateDict) : Heap :=
  ⟨h.next, (r, sd) :: h.cells⟩

def Heap.alloc (h : Heap) (sd : StateDict) : Heap × Nat :=
  (⟨h.next + 1, (h.next, sd) :: h.cells⟩, h.next)

/-- `@attr.s(auto_attribs=True) class TrainerState:` — its only field is
`model: nn.Module` (a reference to a live module object). -/
structure TrainerState where
  model : Nat
  deriving DecidableEq, Repr

/-- A value a Python attribute access on a `TrainerState` can yield. -/
inductive AttrVal
  | modelRef (r : Nat)
  deriving DecidableEq, Repr

/-- Attribute lookup on a `TrainerState` instance: the attrs-generated
class carries exactly the declared field `model`; any other attribute name
(in particular `epoch`) is absent and raises `AttributeError`. -/
def TrainerState.getattr (st : TrainerState) (a : String) : Option AttrVal :=
  if a = "model" then some (.modelRef st.model) else none

def attrValStr : AttrVal → String
  | .modelRef r => toString r

/-- The serialized checkpoint: `attr.asdict(self)` with the `"model"` entry
replaced by the module's `state_dict`.  `TrainerState` has the single field
`model`, so the payload is a one-key dictionary. -/
abbrev CheckpointData := List (String × StateDict)

/-! ### Filesystem with a crash model

`torch.save` is a plain write to the destination path; a crash during a
write leaves the destination truncated/corrupt.  `crashDuring fs ops k`
runs the first `k` operations and then crashes in the middle of operation
`k` (if it is a write, its destination is left corrupt). -/

inductive FileData
  | ckpt (d : CheckpointData)
  | raw (s : String)
  | corrupt
  deriving DecidableEq, Repr

abbrev Files := List (String × FileData)

def getFile (fs : Files) (p : String) : Option FileData :=
  List.lookup p fs

def setFile (fs : Files) (p : String) (d : FileData) : Files :=
  (p, d) :: fs

def removeFile (fs : Files) (p : String) : Files :=
  fs.filter (fun kv => kv.1 != p)

inductive FsOp
  | write (path : String) (d : FileData)
  | remove (path : String)
  deriving DecidableEq, Repr

def applyOp (fs : Files) : FsOp → Files
  | .write p d => setFile fs p d
  | .remove p => removeFile fs p

def runOps (fs : Files) (ops : List FsOp) : Files :=
  ops.foldl applyOp fs

/-- Crash while executing operation `k` of the trace: the first `k`
operations have completed; if operation `k` is a write, its destination is
left corrupt (partially written). -/
def crashDuring (fs : Files) (ops : List FsOp) (k : Nat) : Files :=
  let fs1 := runOps fs (ops.take k)
  match ops.get? k with
  | some (.write p _) => setFile fs1 p .corrupt
  | _ => fs1

/-! ### TrainerState.save / TrainerState.load (train.py lines 36-51) -/

/-- `data = attr.asdict(self); data["model"] = self.model.state_dict()` —
the serialized form of the state, read off the heap. -/
def TrainerState.serialize (heap : Heap) (st : TrainerState) : Option CheckpointData :=
  (heap.get st.model).map (fun sd => [("model", sd)])

/-- The filesystem-operation trace of `TrainerState.save`:
`torch.save(data, filename)` is one direct write to `filename`. -/
def TrainerState.saveOps (heap : Heap) (st : TrainerState) (filename : String) :
    List FsOp :=
  match TrainerState.serialize heap st with
  | some d => [FsOp.write filename (.ckpt d)]
  | none => []

/-- `TrainerState.save(filename)` applied to a filesystem. -/
def TrainerState.save (heap : Heap) (fs : Files) (st : TrainerState)
    (filename : String) : Files :=
  runOps fs (TrainerState.saveOps heap st filename)

/-- The spec's crash-safety property for `save`: no crash point of the
operation trace leaves the destination path corrupt. -/
def saveCrashSafe (heap : Heap) (st : TrainerState) (target : String) : Prop :=
  ∀ fs k, getFile (crashDuring fs (TrainerState.saveOps heap st target) k) target ≠
    some .corrupt

/-- Strict `load_state_dict` key check: the target's and the stored dict's
key sets must coincide (no missing and no unexpected keys). -/
def keysMatch {α : Type} (target stored : List (String × α)) : Bool :=
  target.all (fun kv => (List.lookup kv.1 stored).isSome) &&
    stored.all (fun kv => (List.lookup kv.1 target).isSome)

/-- `TrainerState.load(filename, default)` given the deserialized file
content `data`:
```
data = torch.load(filename)
model = default.model
model.load_state_dict(data["model"])
data["model"] = model
return cls(**data)
```
`load_state_dict` mutates the module `default.model` refers to in place
(strict mode: key sets must match); `cls(**data)` accepts exactly the
declared field names. -/
def TrainerState.load (heap : Heap) (data : CheckpointData)
    (default : TrainerState) : Except PyErr (Heap × TrainerState) :=
  match List.lookup "model" data with
  | none => .error (.keyError "model")
  | some stored =>
    match heap.get default.model with
    | none => .error (.runtimeError "dangling model reference")
    | some target =>
      if keysMatch target stored then
        if data.all (fun kv => kv.1 == "model") then
          .ok (heap.set default.model
            (target.map (fun kv => (kv.1, (List.lookup kv.1 stored).getD kv.2))),
            ⟨default.model⟩)
        else .error (.typeError "unexpected keyword argument")
      else .error (.runtimeError "load_state_dict key mismatch")

/-- Round trip: save to `path` on filesystem `fs`, read the file back, and
load it into `template` (a freshly constructed state living in `heap2`). -/
def saveThenLoad (heap : Heap) (st : TrainerState) (fs : Files) (path : String)
    (heap2 : Heap) (template : TrainerState) : Except PyErr (Heap × TrainerState) :=
  let fs1 := TrainerState.save heap fs st path
  match getFile fs1 path with
  | some (.ckpt d) => TrainerState.load heap2 d template
  | _ => .error (.runtimeError "torch.load")

/-! ### Configuration (imnet_extract/config.py, not under src/) -/

/-- Modelled from the spec: `TrainerConfig` is the immutable configuration
record (architecture name, dataset path, weight path, save paths, batch
size, worker count, input size, rank/world-size, job id) supplied by
`imnet_extract/config.py`, which is outside the provided sources. -/
structure TrainerConfig where
  architecture : String
  dataset_path : String
  weight_path : String
  save_folder : String
  save_path : String
  job_id : Nat
  batch_per_gpu : Nat
  workers : Nat
  input_size : Nat
  local_rank : Nat
  global_rank : Nat
  num_tasks : Nat
  deriving DecidableEq, Repr

/-- Modelled from the spec: `ClusterConfig` holds the distributed backend
name and the `file://`-prefixed rendezvous URL; it comes from
`imnet_extract/config.py`, outside the provided sources. -/
structure ClusterConfig where
  dist_backend : String
  dist_url : String
  deriving DecidableEq, Repr

/-- `Trainer.__init__` stores exactly the two configuration objects. -/
structure Trainer where
  train_cfg : TrainerConfig
  cluster_cfg : ClusterConfig
  deriving DecidableEq, Repr

/-! ### Architecture selection (train.py lines 125-133) -/

/-- Modelled from the spec: `pnasnet.pnasnet5large` is an external backbone
constructor (architecture definitions are out of scope); the placeholder
named-parameter mapping stands for that architecture's parameter set. -/
def pnasnet5large : StateDict :=
  [("features.conv0.weight", 1), ("last_linear.weight", 2)]

/-- Modelled from the spec: `Res.resnet50` is an external backbone
constructor; the placeholder mapping stands for its parameter set. -/
def resnet50 : StateDict :=
  [("conv1.weight", 3), ("fc.weight", 4)]

/-- Modelled from the spec: `resnext_wsl.resnext101_32x48d_wsl` is an
external backbone constructor; the placeholder mapping stands for its
parameter set. -/
def resnext101_32x48d_wsl : StateDict :=
  [("conv1.weight", 5), ("fc.weight", 6)]

/-- The flat sequence of equality checks selecting the backbone:
```
if self._train_cfg.architecture=='PNASNet' :
    model= pnasnet5large(pretrained='imagenet')
if self._train_cfg.architecture=='ResNet50' :
    model=resnet50(pretrained=False)
if self._train_cfg.architecture=='IGAM_Resnext101_32x48d' :
    model=resnext101_32x48d_wsl(progress=True)
```
No branch has an `else`; an unrecognized name leaves `model` unbound
(`none`). -/
def selectModel (architecture : String) : Option StateDict :=
  let model : Option StateDict := none
  let model := if architecture = "PNASNet" then some pnasnet5large else model
  let model := if architecture = "ResNet50" then some resnet50 else model
  let model := if architecture = "IGAM_Resnext101_32x48d" then
    some resnext101_32x48d_wsl else model
  model

/-- Inputs `_init_state` reads from the filesystem: the deserialized weight
file `torch.load(weight_path)` (a dictionary that must hold a `"model"`
key), and the content of `<save_folder>/<job_id>/checkpoint.pth` when that
file exists (`none` when `os.path.isfile` is false). -/
structure InitInput where
  weightData : List (String × StateDict)
  checkpointData : Option CheckpointData
  deriving DecidableEq, Repr

/-- `Trainer._init_state` (train.py lines 99-165), with the external
collaborators (seeds, transforms, dataset, DataLoader, freezing, device
placement) elided as they neither bind `model` nor fail in this model:
1. the three architecture equality checks (no `else`, no validation);
2. `pretrained_dict = torch.load(weight_path)['model']` — `KeyError` if
   the `"model"` key is absent;
3. `model_dict = model.state_dict()` — `NameError` here when no branch
   bound `model`;
4. the copy loop; `model.load_state_dict(model_dict)` (in-place update);
5. `print(count2*100/count)` — `ZeroDivisionError` when the target dict
   is empty;
6. `assert int(count2*100/count) == 100, "model loading error"`;
7. `self._state = TrainerState(model=model)`; then, if a checkpoint file
   exists at the conventional path, `TrainerState.load` over it. -/
def Trainer.initState (cfg : TrainerConfig) (heap : Heap) (inp : InitInput) :
    Except PyErr (Heap × TrainerState) :=
  let model := selectModel cfg.architecture
  match List.lookup "model" inp.weightData with
  | none => .error (.keyError "model")
  | some pretrained_dict =>
    match model with
    | none => .error (.nameError "model")
    | some constructed =>
      let hr := Heap.alloc heap constructed
      let heap1 := hr.1
      let ref := hr.2
      let model_dict := constructed
      let copied := copyPretrained model_dict pretrained_dict
      let heap2 := Heap.set heap1 ref copied
      if model_dict.length = 0 then .error .zeroDivisionError
      else if ⌊coveragePercent model_dict pretrained_dict⌋ = (100 : ℤ) then
        match inp.checkpointData with
        | none => .ok (heap2, ⟨ref⟩)
        | some ck => TrainerState.load heap2 ck ⟨ref⟩
      else .error (.assertionError "model loading error")

/-! ### Trainer.checkpoint (train.py lines 70-84)

```
save_dir = osp.join(self._train_cfg.save_folder, str(self._train_cfg.job_id))
os.makedirs(save_dir, exist_ok=True)
self._state.save(osp.join(save_dir, "checkpoint.pth"))
self._state.save(osp.join(save_dir, "checkpoint_"+str(self._state.epoch)+".pth"))
if rm_init:
    os.remove(self._cluster_cfg.dist_url[7:])
empty_trainer = Trainer(self._train_cfg, self._cluster_cfg)
return empty_trainer
```
The result pairs the filesystem after whatever operations completed with
either the raised exception or the returned trainer. -/

def Trainer.checkpoint (t : Trainer) (heap : Heap) (fs : Files)
    (st : TrainerState) (rm_init : Bool) : Files × Except PyErr Trainer :=
  let save_dir := t.train_cfg.save_folder ++ "/" ++ toString t.train_cfg.job_id
  let fs1 := TrainerState.save heap fs st (save_dir ++ "/checkpoint.pth")
  match TrainerState.getattr st "epoch" with
  | none => (fs1, .error (.attributeError "epoch"))
  | some v =>
    let fs2 := TrainerState.save heap fs1 st
      (save_dir ++ "/checkpoint_" ++ attrValStr v ++ ".pth")
    let fs3 := if rm_init then applyOp fs2 (.remove (t.cluster_cfg.dist_url.drop 7))
      else fs2
    (fs3, .ok ⟨t.train_cfg, t.cluster_cfg⟩)

/-- The Python default of the `rm_init` parameter (`def checkpoint(self,
rm_init=True)`). -/
def checkpointRmInitDefault : Bool := true

/-- `checkpoint()` invoked without an argument, i.e. at the default. -/
def Trainer.checkpointDefault (t : Trainer) (heap : Heap) (fs : Files)
    (st : TrainerState) : Files × Except PyErr Trainer :=
  Trainer.checkpoint t heap fs st checkpointRmInitDefault

/-! ### Inference loop (train.py `Trainer._train`, lines 166-191)

The loop is parametric in the sample type and in the external model
forward (`outputs, embed = model(images)` acts per sample/row), the label
of each sample, and the per-row softmax. -/

/-- The three accumulator variables of `_train`, each starting as `None`. -/
structure LoopAcc (π ε : Type) where
  softmax_probability : Option (List π)
  embedding : Option (List ε)
  exctract_label : Option (List Int)
  deriving DecidableEq, Repr

/-- One iteration of `for data in tqdm.tqdm(self._test_loader)`: compute
the batch's softmax rows, embedding rows and labels; on the first batch
(`embedding is None`) initialize the three arrays, afterwards concatenate
along the sample axis. -/
def loopStep {σ L π ε : Type} (labelOf : σ → Int) (fwd : σ → L × ε)
    (softmaxF : L → π) (acc : LoopAcc π ε) (data : List σ) : LoopAcc π ε :=
  let outputs := data.map (fun s => (fwd s).1)
  let embed := data.map (fun s => (fwd s).2)
  let labels := data.map labelOf
  match acc.embedding with
  | none =>
    { softmax_probability := some (outputs.map softmaxF)
      embedding := some embed
      exctract_label := some labels }
  | some e =>
    { softmax_probability := some (acc.softmax_probability.getD [] ++ outputs.map softmaxF)
      embedding := some (e ++ embed)
      exctract_label := some (acc.exctract_label.getD [] ++ labels) }

/-- The whole accumulation loop over the batches the loader yields. -/
def runLoop {σ L π ε : Type} (labelOf : σ → Int) (fwd : σ → L × ε)
    (softmaxF : L → π) (batches : List (List σ)) : LoopAcc π ε :=
  batches.foldl (loopStep labelOf fwd softmaxF) ⟨none, none, none⟩

/-- `Trainer._train`: run the loop, then write the three `.npy` files (a
still-`None` accumulator is persisted as `None`), and return `0.0`. -/
def Trainer.trainRun {σ L π ε : Type} (cfg : TrainerConfig) (labelOf : σ → Int)
    (fwd : σ → L × ε) (softmaxF : L → π) (batches : List (List σ)) :
    ((String × Option (List Int)) × (String × Option (List ε)) ×
      (String × Option (List π))) × ℚ :=
  let acc := runLoop labelOf fwd softmaxF batches
  (((cfg.save_path ++ "labels.npy", acc.exctract_label),
    (cfg.save_path ++ cfg.architecture ++ "_embedding.npy", acc.embedding),
    (cfg.save_path ++ cfg.architecture ++ "_softmax.npy", acc.softmax_probability)),
   0)

/-- `Trainer.__call__`: `self._init_state()` followed by `self._train()`;
an exception in `_init_state` propagates and the inference loop never
runs. -/
def Trainer.call {σ L π ε : Type} (cfg : TrainerConfig) (heap : Heap)
    (inp : InitInput) (labelOf : σ → Int) (fwd : σ → L × ε) (softmaxF : L → π)
    (batches : List (List σ)) :
    Except PyErr (((String × Option (List Int)) × (String × Option (List ε)) ×
      (String × Option (List π))) × ℚ) :=
  (Trainer.initState cfg heap inp).map
    (fun _ => Trainer.trainRun cfg labelOf fwd softmaxF batches)

/-! ### Helper lemmas -/

/-- Looking a key up after a key-preserving per-entry rewrite is the
rewrite of the original lookup. -/
theorem lookup_map_keyfun {α : Type} (f : String → α → α) (l : List (String × α))
    (k : String) :
    List.lookup k (l.map (fun kv => (kv.1, f kv.1 kv.2))) =
      (List.lookup k l).map (f k) := by
  induction l with
  | nil => rfl
  | cons a t ih =>
    obtain ⟨k', v'⟩ := a
    by_cases hk : k = k'
    · subst hk
      simp [List.lookup_cons]
    · have hb : (k == k') = false := beq_false_of_ne hk
      simp [List.lookup_cons, hb, ih]

/-- A successful lookup comes from a list entry. -/
theorem mem_of_lookup_eq_some {α : Type} {l : List (String × α)} {k : String}
    {v : α} (h : List.lookup k l = some v) : (k, v) ∈ l := by
  induction l with
  | nil => simp [List.lookup] at h
  | cons a t ih =>
    obtain ⟨k', v'⟩ := a
    rw [List.lookup_cons] at h
    rcases hb : (k == k') with _ | _
    · rw [hb] at h
      exact List.mem_cons_of_mem _ (ih h)
    · rw [hb] at h
      obtain rfl := beq_iff_eq.mp hb
      cases h
      exact List.mem_cons_self _ _

/-- Under a strict key match, rewriting every target entry to the stored
value at its key reproduces the stored mapping, lookup for lookup. -/
theorem keysMatch_lookup {α : Type} (target stored : List (String × α))
    (h : keysMatch target stored = true) (k : String) :
    List.lookup k (target.map (fun kv => (kv.1, (List.lookup kv.1 stored).getD kv.2)))
      = List.lookup k stored := by
  have h1 : ∀ kv ∈ target, (List.lookup kv.1 stored).isSome := by
    have := (Bool.and_eq_true _ _).mp h |>.1
    simpa [List.all_eq_true] using this
  have h2 : ∀ kv ∈ stored, (List.lookup kv.1 target).isSome := by
    have := (Bool.and_eq_true _ _).mp h |>.2
    simpa [List.all_eq_true] using this
  rw [lookup_map_keyfun (fun k v => (List.lookup k stored).getD v)]
  cases ht : List.lookup k target with
  | none =>
    cases hs : List.lookup k stored with
    | none => rfl
    | some w =>
      have := h2 (k, w) (mem_of_lookup_eq_some hs)
      rw [ht] at this
      simp at this
  | some v =>
    have := h1 (k, v) (mem_of_lookup_eq_some ht)
    cases hs : List.lookup k stored with
    | none => rw [hs] at this; simp at this
    | some w => simp [hs]

/-- The truncated percentage `int(count2*100/count)` equals `100` exactly
when every key matched. -/
theorem coverage_floor_iff (c2 c : Nat) (hc : c ≠ 0) (hle : c2 ≤ c) :
    ⌊((c2 : ℚ) * 100) / (c : ℚ)⌋ = (100 : ℤ) ↔ c2 = c := by
  have hc0 : (0 : ℚ) < (c : ℚ) := by positivity
  constructor
  · intro hfl
    have hge : (100 : ℚ) ≤ (c2 : ℚ) * 100 / (c : ℚ) := by
      have := Int.le_floor.mp (le_of_eq hfl.symm)
      simpa using this
    have hle' : (c2 : ℚ) * 100 / (c : ℚ) ≤ 100 := by
      rw [div_le_iff₀ hc0]
      have : (c2 : ℚ) ≤ (c : ℚ) := by exact_mod_cast hle
      nlinarith
    have heq : (c2 : ℚ) * 100 / (c : ℚ) = 100 := le_antisymm hle' hge
    rw [div_eq_iff (ne_of_gt hc0)] at heq
    have : (c2 : ℚ) = (c : ℚ) := by linarith
    exact_mod_cast this
  · intro rfl_eq
    subst rfl_eq
    rw [mul_comm, mul_div_assoc, div_self (ne_of_gt hc0), mul_one]
    exact Int.floor_intCast 100

theorem matchedCount_le_length {α : Type} (md pd : List (String × α)) :
    matchedCount md pd ≤ md.length :=
  List.length_filter_le _ _

/-- Reading back the file a `setFile` just wrote. -/
theorem getFile_setFile_self (fs : Files) (p : String) (d : FileData) :
    getFile (setFile fs p d) p = some d := by
  simp [getFile, setFile, List.lookup_cons]

/-- `setFile` leaves other paths alone. -/
theorem getFile_setFile_ne (fs : Files) (p q : String) (d : FileData)
    (h : q ≠ p) : getFile (setFile fs p d) q = getFile fs q := by
  have hb : (q == p) = false := beq_false_of_ne h
  simp [getFile, setFile, List.lookup_cons, hb]

/-- Reading the cell a `Heap.set` just wrote. -/
theorem Heap.get_set_self (h : Heap) (r : Nat) (sd : StateDict) :
    (h.set r sd).get r = some sd := by
  simp [Heap.get, Heap.set, List.lookup_cons]

/-- The copy-loop body rewrites each entry to the prefixed source value
when present, keeping the entry otherwise. -/
theorem copyEntry_eq {α : Type} (pretrained_dict : List (String × α))
    (kv : String × α) :
    copyEntry pretrained_dict kv =
      (kv.1, (List.lookup ("module." ++ kv.1) pretrained_dict).getD kv.2) := by
  unfold copyEntry
  cases h : List.lookup ("module." ++ kv.1) pretrained_dict with
  | none => simp
  | some v => simp

/-! ### Claims -/

/-- C1: for every target-model parameter mapping and every source
(pretrained) mapping, the weight loader copies into the target exactly
those entries whose key `k` has `"module." ++ k` present in the source
(the copied value being the source's value at `"module." ++ k`), leaves
the target value unchanged for every key `k` without such a match, and
computes the coverage (the printed and asserted `count2*100/count`) as one
hundred times the fraction (number of target keys that received a copied
value) / (total number of target keys). -/
theorem weight_loader_copies_and_coverage (α : Type)
    (model_dict pretrained_dict : List (String × α)) (k : String) :
    List.lookup k (copyPretrained model_dict pretrained_dict) =
      (List.lookup k model_dict).map
        (fun v => (List.lookup ("module." ++ k) pretrained_dict).getD v)
    ∧ coveragePercent model_dict pretrained_dict =
        100 * coverageFraction model_dict pretrained_dict
    ∧ coverageFraction model_dict pretrained_dict =
        (matchedCount model_dict pretrained_dict : ℚ) / (model_dict.length : ℚ) := by
  refine ⟨?_, ?_, rfl⟩
  · unfold copyPretrained
    have hmap : model_dict.map (copyEntry pretrained_dict) =
        model_dict.map
          (fun kv => (kv.1, (List.lookup ("module." ++ kv.1) pretrained_dict).getD kv.2)) := by
      apply List.map_congr_left
      intro kv _
      exact copyEntry_eq pretrained_dict kv
    rw [hmap]
    exact lookup_map_keyfun
      (fun k v => (List.lookup ("module." ++ k) pretrained_dict).getD v) model_dict k
  · unfold coveragePercent coverageFraction
    ring

/-- C2: with a recognized architecture, a weight file carrying a `"model"`
mapping, no pre-existing checkpoint and a nonempty target mapping, weight
loading proceeds past the assertion if and only if the coverage is exactly
100% (every target key matched), and otherwise the `AssertionError` aborts
state initialization, so `__call__` propagates it and never reaches the
inference loop.  Concretely, for target keys `a, b, c` and a source holding
only `module.a, module.b`, the coverage fraction is `2/3` and the assertion
triggers; with all three prefixed keys present the assertion passes. -/
theorem coverage_assert_fatal_iff (cfg : TrainerConfig) (heap : Heap)
    (inp : InitInput) (constructed pretrained_dict : StateDict)
    (hsel : selectModel cfg.architecture = some constructed)
    (hwd : List.lookup "model" inp.weightData = some pretrained_dict)
    (hck : inp.checkpointData = none)
    (hne : constructed ≠ []) :
    ((∃ r, Trainer.initState cfg heap inp = .ok r) ↔
        matchedCount constructed pretrained_dict = constructed.length)
    ∧ (Trainer.initState cfg heap inp = .error (.assertionError "model loading error") ↔
        matchedCount constructed pretrained_dict ≠ constructed.length)
    ∧ (matchedCount constructed pretrained_dict ≠ constructed.length →
        ∀ batches : List (List Nat),
          Trainer.call cfg heap inp (fun s : Nat => (s : Int)) (fun s => (s, s))
              (fun s : Nat => s) batches
            = .error (.assertionError "model loading error"))
    ∧ coverageFraction [("a", (1 : Tensor)), ("b", 2), ("c", 3)]
        [("module.a", (10 : Tensor)), ("module.b", 20)] = 2 / 3
    ∧ ¬ coverageAssertPasses [("a", (1 : Tensor)), ("b", 2), ("c", 3)]
        [("module.a", (10 : Tensor)), ("module.b", 20)]
    ∧ coverageAssertPasses [("a", (1 : Tensor)), ("b", 2), ("c", 3)]
        [("module.a", (10 : Tensor)), ("module.b", 20), ("module.c", 30)] := by
  have hlen : constructed.length ≠ 0 := fun h0 => hne (List.length_eq_zero.mp h0)
  have hiff : (⌊coveragePercent constructed pretrained_dict⌋ = (100 : ℤ)) ↔
      matchedCount constructed pretrained_dict = constructed.length := by
    unfold coveragePercent
    exact coverage_floor_iff _ _ hlen (matchedCount_le_length _ _)
  have hkey : Trainer.initState cfg heap inp =
      if ⌊coveragePercent constructed pretrained_dict⌋ = (100 : ℤ) then
        .ok (Heap.set (Heap.alloc heap constructed).1 (Heap.alloc heap constructed).2
              (copyPretrained constructed pretrained_dict),
             ⟨(Heap.alloc heap constructed).2⟩)
      else .error (.assertionError "model loading error") := by
    simp only [Trainer.initState, hwd, hsel, hck]
    rw [if_neg hlen]
  have hm2 : matchedCount [("a", (1 : Tensor)), ("b", 2), ("c", 3)]
      [("module.a", (10 : Tensor)), ("module.b", 20)] = 2 := by decide
  have hm3 : matchedCount [("a", (1 : Tensor)), ("b", 2), ("c", 3)]
      [("module.a", (10 : Tensor)), ("module.b", 20), ("module.c", 30)] = 3 := by decide
  have hl3 : ([("a", (1 : Tensor)), ("b", 2), ("c", 3)]).length = 3 := rfl
  refine ⟨?_, ?_, ?_, ?_, ?_, ?_⟩
  · rw [hkey]
    constructor
    · rintro ⟨r, hr⟩
      by_cases hfl : ⌊coveragePercent constructed pretrained_dict⌋ = (100 : ℤ)
      · exact hiff.mp hfl
      · rw [if_neg hfl] at hr
        cases hr
    · intro heq
      rw [if_pos (hiff.mpr heq)]
      exact ⟨_, rfl⟩
  · rw [hkey]
    constructor
    · intro herr heq
      rw [if_pos (hiff.mpr heq)] at herr
      cases herr
    · intro hne'
      rw [if_neg (fun hfl => hne' (hiff.mp hfl))]
  · intro hne' batches
    have herr : Trainer.initState cfg heap inp
        = .error (.assertionError "model loading error") := by
      rw [hkey, if_neg (fun hfl => hne' (hiff.mp hfl))]
    simp [Trainer.call, herr, Except.map]
  · unfold coverageFraction
    rw [hm2, hl3]
    norm_num
  · intro hpass
    unfold coverageAssertPasses coveragePercent at hpass
    rw [hm2, hl3] at hpass
    exact absurd ((coverage_floor_iff 2 3 (by norm_num) (by norm_num)).mp hpass)
      (by norm_num)
  · unfold coverageAssertPasses coveragePercent
    rw [hm3, hl3]
    exact (coverage_floor_iff 3 3 (by norm_num) le_rfl).mpr rfl

/-- Witness for C2: at a concrete recognized configuration whose weight
file covers every target key with the `module.` namespace, state
initialization succeeds. -/
theorem coverage_assert_fatal_iff_witness :
    ∃ r, Trainer.initState
      ⟨"ResNet50", "d", "w", "sf", "sp", 0, 1, 1, 224, 0, 0, 1⟩ ⟨0, []⟩
      ⟨[("model", [("module.conv1.weight", 30), ("module.fc.weight", 40)])], none⟩
      = .ok r :=
  ((coverage_assert_fatal_iff _ ⟨0, []⟩ _ resnet50
      [("module.conv1.weight", 30), ("module.fc.weight", 40)]
      (by decide) (by decide) rfl (by decide)).1).mpr (by decide)

/-- C8: for every configured architecture name outside the recognized set,
no selection branch binds `model` and there is no immediate membership
check: `_init_state` proceeds, loads the weight file, and fails only at
the first use of the unbound `model` (`model.state_dict()`) with a
`NameError` — or, if the weight file lacks its `"model"` key, with the
weight file's own `KeyError`, still not an architecture check. -/
theorem unknown_architecture_late_failure (cfg : TrainerConfig)
    (h : cfg.architecture ∉
      (["PNASNet", "ResNet50", "IGAM_Resnext101_32x48d"] : List String)) :
    selectModel cfg.architecture = none
    ∧ (∀ (heap : Heap) (inp : InitInput),
        List.lookup "model" inp.weightData = none →
        Trainer.initState cfg heap inp = .error (.keyError "model"))
    ∧ (∀ (heap : Heap) (inp : InitInput) (pd : StateDict),
        List.lookup "model" inp.weightData = some pd →
        Trainer.initState cfg heap inp = .error (.nameError "model")) := by
  have h1 : cfg.architecture ≠ "PNASNet" := by
    intro he; exact h (by rw [he]; simp)
  have h2 : cfg.architecture ≠ "ResNet50" := by
    intro he; exact h (by rw [he]; simp)
  have h3 : cfg.architecture ≠ "IGAM_Resnext101_32x48d" := by
    intro he; exact h (by rw [he]; simp)
  have hsel : selectModel cfg.architecture = none := by
    simp [selectModel, h1, h2, h3]
  refine ⟨hsel, ?_, ?_⟩
  · intro heap inp hwd
    simp [Trainer.initState, hwd]
  · intro heap inp pd hwd
    simp [Trainer.initState, hwd, hsel]

/-- Witness for C8: the unrecognized architecture name `ResNet101` leads
to a `NameError` at the first use of `model`, after the weight file has
been read. -/
theorem unknown_architecture_late_failure_witness :
    Trainer.initState ⟨"ResNet101", "d", "w", "sf", "sp", 0, 1, 1, 224, 0, 0, 1⟩
      ⟨0, []⟩ ⟨[("model", [("module.x", 1)])], none⟩ = .error (.nameError "model") :=
  (unknown_architecture_late_failure _ (by decide)).2.2 ⟨0, []⟩ _
    [("module.x", 1)] (by decide)

/-- The accumulation loop started from already-initialized arrays appends
each batch's rows in iteration order. -/
theorem runLoop_from_some {σ L π ε : Type} (labelOf : σ → Int) (fwd : σ → L × ε)
    (softmaxF : L → π) (bs : List (List σ)) (s : List π) (e : List ε) (l : List Int) :
    bs.foldl (loopStep labelOf fwd softmaxF) ⟨some s, some e, some l⟩ =
      ⟨some (s ++ bs.flatten.map (fun x => softmaxF (fwd x).1)),
       some (e ++ bs.flatten.map (fun x => (fwd x).2)),
       some (l ++ bs.flatten.map labelOf)⟩ := by
  induction bs generalizing s e l with
  | nil => simp
  | cons b t ih =>
    rw [List.foldl_cons]
    have hstep : loopStep labelOf fwd softmaxF ⟨some s, some e, some l⟩ b =
        ⟨some (s ++ (b.map (fun x => (fwd x).1)).map softmaxF),
         some (e ++ b.map (fun x => (fwd x).2)),
         some (l ++ b.map labelOf)⟩ := rfl
    rw [hstep, ih]
    simp [List.map_map, Function.comp, List.append_assoc]

/-- C3 (amended: the loader yields at least one batch): at the moment the
loop persists its outputs, each accumulated array is exactly the
concatenation of the per-batch rows in the fixed iteration order — so all
three have length `N` and at every index the label, embedding row and
softmax row come from the same sample. -/
theorem loop_alignment (σ L π ε : Type) (labelOf : σ → Int) (fwd : σ → L × ε)
    (softmaxF : L → π) (batches : List (List σ)) (h : batches ≠ []) :
    runLoop labelOf fwd softmaxF batches =
      ⟨some (batches.flatten.map (fun x => softmaxF (fwd x).1)),
       some (batches.flatten.map (fun x => (fwd x).2)),
       some (batches.flatten.map labelOf)⟩
    ∧ (batches.flatten.map (fun x => softmaxF (fwd x).1)).length = batches.flatten.length
    ∧ (batches.flatten.map (fun x => (fwd x).2)).length = batches.flatten.length
    ∧ (batches.flatten.map labelOf).length = batches.flatten.length := by
  refine ⟨?_, List.length_map _ _, List.length_map _ _, List.length_map _ _⟩
  obtain ⟨b, t, rfl⟩ := List.exists_cons_of_ne_nil h
  unfold runLoop
  rw [List.foldl_cons]
  have hstep : loopStep labelOf fwd softmaxF ⟨none, none, none⟩ b =
      ⟨some ((b.map (fun x => (fwd x).1)).map softmaxF),
       some (b.map (fun x => (fwd x).2)),
       some (b.map labelOf)⟩ := rfl
  rw [hstep, runLoop_from_some]
  simp [List.map_map, Function.comp]

/-- Counterexample to C3 as stated: with zero batches (an empty dataset,
`N = 0`, sizes summing to 0) the accumulators are still `None` at
persistence time — not three arrays with 0 entries. -/
theorem loop_alignment_counterexample :
    @runLoop Nat Nat Nat Nat (fun s => (s : Int)) (fun s => (s, s)) (fun s => s) []
      = ⟨none, none, none⟩
    ∧ (⟨none, none, none⟩ : LoopAcc Nat Nat) ≠ ⟨some [], some [], some []⟩ :=
  ⟨rfl, by decide⟩

/-- Witness for C3 at concrete batches `[[1,2],[3]]` of sizes 2 and 1:
the three arrays each hold the three samples' rows in order. -/
theorem loop_alignment_witness :
    @runLoop Nat Nat Nat Nat (fun s => (s : Int)) (fun s => (s, s)) (fun s => s + 1)
        [[1, 2], [3]] =
      ⟨some [2, 3, 4], some [1, 2, 3], some [1, 2, 3]⟩ :=
  ((loop_alignment Nat Nat Nat Nat (fun s => (s : Int)) (fun s => (s, s))
      (fun s => s + 1) [[1, 2], [3]] (by decide)).1).trans (by decide)

/-- C9: if the data source yields zero batches, the three accumulators are
never initialized, so the three files are written with the value `None`
(not zero-length arrays), and the loop still returns its completion value
`0.0`. -/
theorem empty_loader_writes_none (σ L π ε : Type) (cfg : TrainerConfig)
    (labelOf : σ → Int) (fwd : σ → L × ε) (softmaxF : L → π) :
    Trainer.trainRun cfg labelOf fwd softmaxF ([] : List (List σ)) =
      (((cfg.save_path ++ "labels.npy", none),
        (cfg.save_path ++ cfg.architecture ++ "_embedding.npy", none),
        (cfg.save_path ++ cfg.architecture ++ "_softmax.npy", none)), 0) := rfl

/-- Counterexample to C4 as stated: the round trip reproduces only the
model; the resulting state has no `epoch` attribute at all (the class's
only field is `model`), and the serialized checkpoint holds no `"epoch"`
entry — there is no epoch marker to reproduce. -/
theorem checkpoint_roundtrip_counterexample :
    (saveThenLoad ⟨1, [(0, [("w", 7), ("b", 8)])]⟩ ⟨0⟩ [] "checkpoint.pth"
        ⟨1, [(0, [("w", 0), ("b", 0)])]⟩ ⟨0⟩).toOption.map
      (fun r => TrainerState.getattr r.2 "epoch") = some none
    ∧ (TrainerState.serialize ⟨1, [(0, [("w", 7), ("b", 8)])]⟩ ⟨0⟩).map
        (List.lookup "epoch") = some none := by decide

/-- C4 (amended: no epoch marker exists — `TrainerState`'s only field is
the model): saving a state and loading the written file into a freshly
constructed template of identical architecture (same parameter names)
succeeds and reproduces the saved parameter values bit-for-bit, key for
key; the resulting state carries no epoch attribute. -/
theorem checkpoint_roundtrip_params (heap : Heap) (st : TrainerState) (fs : Files)
    (path : String) (heap2 : Heap) (template : TrainerState) (sd tsd : StateDict)
    (hsd : heap.get st.model = some sd)
    (htsd : heap2.get template.model = some tsd)
    (hkeys : keysMatch tsd sd = true) :
    ∃ p, saveThenLoad heap st fs path heap2 template = .ok p
      ∧ p.2.model = template.model
      ∧ TrainerState.getattr p.2 "epoch" = none
      ∧ (∃ newP, (p.1).get template.model = some newP
          ∧ ∀ k, List.lookup k newP = List.lookup k sd) := by
  have hser : TrainerState.serialize heap st = some [("model", sd)] := by
    simp [TrainerState.serialize, hsd]
  have hops : TrainerState.saveOps heap st path =
      [FsOp.write path (.ckpt [("model", sd)])] := by
    simp [TrainerState.saveOps, hser]
  have hfile : getFile (TrainerState.save heap fs st path) path =
      some (.ckpt [("model", sd)]) := by
    rw [TrainerState.save, hops]
    exact getFile_setFile_self fs path _
  refine ⟨(Heap.set heap2 template.model
      (tsd.map (fun kv => (kv.1, (List.lookup kv.1 sd).getD kv.2))),
      ⟨template.model⟩), ?_, rfl, rfl,
      tsd.map (fun kv => (kv.1, (List.lookup kv.1 sd).getD kv.2)),
      Heap.get_set_self heap2 template.model _,
      keysMatch_lookup tsd sd hkeys⟩
  simp [saveThenLoad, hfile, TrainerState.load, htsd, hkeys, List.lookup_cons]

/-- Witness for C4 at a concrete state and template of identical
architecture: the loaded parameters equal the saved ones. -/
theorem checkpoint_roundtrip_params_witness :
    ∃ p, saveThenLoad ⟨1, [(0, [("w", 7), ("b", 8)])]⟩ ⟨0⟩ [] "checkpoint.pth"
        ⟨1, [(0, [("w", 0), ("b", 0)])]⟩ ⟨0⟩ = .ok p
      ∧ p.2.model = (⟨0⟩ : TrainerState).model
      ∧ TrainerState.getattr p.2 "epoch" = none
      ∧ (∃ newP, (p.1).get (⟨0⟩ : TrainerState).model = some newP
          ∧ ∀ k, List.lookup k newP = List.lookup k [("w", (7 : Tensor)), ("b", 8)]) :=
  checkpoint_roundtrip_params _ _ _ _ _ _ [("w", 7), ("b", 8)] [("w", 0), ("b", 0)]
    (by decide) (by decide) (by decide)

/-- C10: a successful `TrainerState.load(filename, default)` mutates its
template in place: the returned state's `model` is the very same object
(reference) as `default.model`, and that object's parameters have been
overwritten with the stored parameter mapping. -/
theorem load_mutates_template_in_place (heap : Heap) (data : CheckpointData)
    (default : TrainerState) (heap' : Heap) (st' : TrainerState)
    (h : TrainerState.load heap data default = .ok (heap', st')) :
    st'.model = default.model
    ∧ ∃ stored, List.lookup "model" data = some stored
      ∧ ∃ newP, heap'.get default.model = some newP
        ∧ ∀ k, List.lookup k newP = List.lookup k stored := by
  unfold TrainerState.load at h
  split at h
  · cases h
  · rename_i stored hlk
    split at h
    · cases h
    · rename_i target hg
      split at h
      · rename_i hk
        split at h
        · injection h with h'
          obtain ⟨hh, hs⟩ := Prod.mk.inj h'
          subst hh
          subst hs
          exact ⟨rfl, stored, hlk,
            target.map (fun kv => (kv.1, (List.lookup kv.1 stored).getD kv.2)),
            Heap.get_set_self heap default.model _,
            keysMatch_lookup target stored hk⟩
        · cases h
      · cases h

/-- Witness for C10: loading concrete checkpoint data over a template
returns the template's own model reference with its parameters
overwritten by the stored mapping. -/
theorem load_mutates_template_in_place_witness :
    TrainerState.load ⟨1, [(0, [("w", 0), ("b", 0)])]⟩
        [("model", [("w", 5), ("b", 6)])] ⟨0⟩ =
      .ok (⟨1, [(0, [("w", 5), ("b", 6)]), (0, [("w", 0), ("b", 0)])]⟩, ⟨0⟩)
    ∧ ((⟨0⟩ : TrainerState).model = (⟨0⟩ : TrainerState).model
      ∧ ∃ stored, List.lookup "model" [("model", [("w", (5 : Tensor)), ("b", 6)])]
          = some stored
        ∧ ∃ newP, Heap.get ⟨1, [(0, [("w", 5), ("b", 6)]), (0, [("w", 0), ("b", 0)])]⟩
              (⟨0⟩ : TrainerState).model = some newP
          ∧ ∀ k, List.lookup k newP = List.lookup k stored) :=
  ⟨rfl,
    load_mutates_template_in_place ⟨1, [(0, [("w", 0), ("b", 0)])]⟩
      [("model", [("w", 5), ("b", 6)])] ⟨0⟩
      ⟨1, [(0, [("w", 5), ("b", 6)]), (0, [("w", 0), ("b", 0)])]⟩ ⟨0⟩ rfl⟩

/-- C5 (the code as written): `checkpoint()` always writes the primary
`<save_folder>/<job_id>/checkpoint.pth` file and then raises
`AttributeError` at `self._state.epoch` (the state has no `epoch` field),
so the epoch-suffixed sibling file is never written and no empty Trainer
is ever returned. -/
theorem checkpoint_raises_attribute_error (t : Trainer) (heap : Heap) (fs : Files)
    (st : TrainerState) (rm : Bool) :
    (Trainer.checkpoint t heap fs st rm).2 = .error (.attributeError "epoch")
    ∧ (Trainer.checkpoint t heap fs st rm).1 =
        TrainerState.save heap fs st
          (t.train_cfg.save_folder ++ "/" ++ toString t.train_cfg.job_id
            ++ "/checkpoint.pth") := by
  have hga : TrainerState.getattr st "epoch" = none := by
    simp [TrainerState.getattr]
  constructor <;> simp [Trainer.checkpoint, hga]

/-- C6 (the code as written): the `rm_init` flag does default to `true`,
but even then the rendezvous endpoint file (`dist_url` with `file://`
stripped) is never deleted: the `AttributeError` at `self._state.epoch`
aborts `checkpoint()` before the removal is reached. -/
theorem checkpoint_never_removes_rendezvous (t : Trainer) (heap : Heap)
    (fs : Files) (st : TrainerState)
    (hne : t.cluster_cfg.dist_url.drop 7 ≠
        t.train_cfg.save_folder ++ "/" ++ toString t.train_cfg.job_id
          ++ "/checkpoint.pth") :
    Trainer.checkpointDefault t heap fs st = Trainer.checkpoint t heap fs st true
    ∧ getFile (Trainer.checkpoint t heap fs st true).1 (t.cluster_cfg.dist_url.drop 7)
        = getFile fs (t.cluster_cfg.dist_url.drop 7)
    ∧ (Trainer.checkpoint t heap fs st true).2 = .error (.attributeError "epoch") := by
  have hga : TrainerState.getattr st "epoch" = none := by
    simp [TrainerState.getattr]
  refine ⟨rfl, ?_, by simp [Trainer.checkpoint, hga]⟩
  simp only [Trainer.checkpoint, hga]
  unfold TrainerState.save TrainerState.saveOps
  cases TrainerState.serialize heap st with
  | none => simp [runOps]
  | some d =>
    simp only [runOps, List.foldl_cons, List.foldl_nil, applyOp]
    exact getFile_setFile_ne fs _ _ _ hne

/-- Witness for C6: at a concrete trainer whose rendezvous endpoint file
exists, `checkpoint(rm_init=True)` leaves that file untouched. -/
theorem checkpoint_never_removes_rendezvous_witness :
    getFile (Trainer.checkpoint
        ⟨⟨"IGAM_Resnext101_32x48d", "d", "w", "sf", "sp", 3, 1, 1, 224, 0, 0, 1⟩,
         ⟨"nccl", "file:///tmp/rendezvous"⟩⟩
        ⟨1, [(0, [("w", 7)])]⟩
        [(("file:///tmp/rendezvous").drop 7, FileData.raw "endpoint")] ⟨0⟩ true).1
      (("file:///tmp/rendezvous").drop 7)
    = getFile [(("file:///tmp/rendezvous").drop 7, FileData.raw "endpoint")]
      (("file:///tmp/rendezvous").drop 7) :=
  (checkpoint_never_removes_rendezvous _ _ _ _ (by decide)).2.1

/-- Counterexample to C7 as stated: `TrainerState.save` is not atomic —
with a last-known-good checkpoint already at the target path, crashing in
the middle of the save's write leaves the target corrupt. -/
theorem save_atomicity_counterexample :
    ¬ saveCrashSafe ⟨1, [(0, [("w", 7)])]⟩ ⟨0⟩ "checkpoint.pth" := by
  intro h
  exact h [("checkpoint.pth", FileData.ckpt [("model", [("w", 1)])])] 0 (by decide)

/-- C7 (amended: there is no write-temp-then-rename): `TrainerState.save`
issues a single direct `torch.save` write to the destination path, and a
crash during that write leaves the destination corrupt, whatever the
previous filesystem contents. -/
theorem save_is_single_direct_write (heap : Heap) (st : TrainerState)
    (filename : String) (sd : StateDict) (hsd : heap.get st.model = some sd) :
    TrainerState.saveOps heap st filename =
      [FsOp.write filename (.ckpt [("model", sd)])]
    ∧ ∀ fs, getFile (crashDuring fs (TrainerState.saveOps heap st filename) 0)
        filename = some .corrupt := by
  have hops : TrainerState.saveOps heap st filename =
      [FsOp.write filename (.ckpt [("model", sd)])] := by
    simp [TrainerState.saveOps, TrainerState.serialize, hsd]
  refine ⟨hops, fun fs => ?_⟩
  rw [hops]
  simp only [crashDuring, List.take_zero, runOps, List.foldl_nil, List.get?]
  exact getFile_setFile_self _ _ _

/-- Witness for C7: at a concrete heap and state, the save trace is the
single direct write, and crashing during it corrupts the destination. -/
theorem save_is_single_direct_write_witness :
    TrainerState.saveOps ⟨1, [(0, [("w", 7)])]⟩ ⟨0⟩ "m.pth" =
      [FsOp.write "m.pth" (.ckpt [("model", [("w", 7)])])]
    ∧ ∀ fs, getFile (crashDuring fs
        (TrainerState.saveOps ⟨1, [(0, [("w", 7)])]⟩ ⟨0⟩ "m.pth") 0) "m.pth"
      = some .corrupt :=
  save_is_single_direct_write _ _ _ [("w", 7)] (by decide)

end FixRes
